import Mathlib

/-!
# Verification of the ExpenseLM MCP server translation layer

Shallow embedding of `src/expenselm_mcp_server.py`: the pydantic domain
models with their validation/coercion semantics, and the six tool
operations of the gateway (query construction, auth-header injection,
response validation).  HTTP transport is modelled by an explicit oracle
`remote : Request → Response`; each operation returns its outcome together
with the trace of HTTP requests it issued.

Python/pydantic behaviour that the claims do not exercise (parsing JSON
text of a top-level-string body, lax string→number coercion) is kept
honest by threading it as an uninterpreted parameter (`PyLib`): every
theorem below holds for all instantiations of those functions, hence in
particular for the real ones.
-/

/-- A parsed JSON value, i.e. the Python object returned by
`httpx.Response.json()`: `None`, `bool`, numbers, `str`, `list`, `dict`.
Numbers are modelled as rationals (no arithmetic is ever performed on
them in this program; they are only carried through validation). -/
inductive Json where
  | null : Json
  | bool : Bool → Json
  | num : Rat → Json
  | str : String → Json
  | arr : List Json → Json
  | obj : List (String × Json) → Json

/-- Key lookup in a JSON object (Python `dict`s have unique keys, so
first-match lookup is faithful). -/
def Json.lookup (flds : List (String × Json)) (k : String) : Option Json :=
  match flds with
  | [] => none
  | (k', v) :: rest => if k' = k then some v else Json.lookup rest k

/-- External Python behaviour that no claim depends on, threaded as an
uninterpreted parameter: `parseJson` is the JSON text parser used by
pydantic's `model_validate_json` when (and only when) its argument is a
Python `str`; `parseNum` is pydantic's lax coercion of a JSON string to
a float.  All theorems are proved for every instantiation. -/
structure PyLib where
  parseJson : String → Option Json
  parseNum : String → Option Rat

/-- `class ExpenseImageType(str, Enum)` with tags Receipt, Invoice, Others. -/
inductive ExpenseImageType where
  | Receipt | Invoice | Others
deriving Repr, DecidableEq

/-- `class ExpenseType(str, Enum)` with tags Standard, Subscription. -/
inductive ExpenseType where
  | Standard | Subscription
deriving Repr, DecidableEq

/-- `class ExpenseImage(BaseModel)`: both fields required (`Field(...)`). -/
structure ExpenseImage where
  image_type : ExpenseImageType
  image_file_name : String
deriving Repr, DecidableEq

/-- `class ExpenseItem(BaseModel)`: all fields defaulted (`""` / `0`). -/
structure ExpenseItem where
  name : String
  quantity : Rat
  unit_price : Rat
  subtotal : Rat
deriving Repr, DecidableEq

/-- `class Expense(BaseModel)`: every field carries a declared default. -/
structure Expense where
  shop_name : String
  shop_address : String
  date : String
  expense_category : String
  currency : String
  total_amount : Rat
  items : List ExpenseItem
  expense_type : ExpenseType
  remark : String
deriving Repr, DecidableEq

/-- `class ExpenseImageData(BaseModel)`: both fields `Optional`, default `None`. -/
structure ExpenseImageData where
  image : Option ExpenseImage
  expense : Option Expense
deriving Repr, DecidableEq

/-- `class ExpenseRecord(ExpenseImageData)`: adds required `id`. -/
structure ExpenseRecord extends ExpenseImageData where
  id : String
deriving Repr, DecidableEq

/-- `class MonthCurAmtStatItem(BaseModel)`: all three fields required. -/
structure MonthCurAmtStatItem where
  month : String
  currency : String
  total_amount : Rat
deriving Repr, DecidableEq

/-- `class CategoryCurAmtStatItem(BaseModel)`: all three fields required. -/
structure CategoryCurAmtStatItem where
  category : String
  currency : String
  total_amount : Rat
deriving Repr, DecidableEq

/-- `class SubscriptionCurAmtStatItem(BaseModel)`: all three fields required. -/
structure SubscriptionCurAmtStatItem where
  subscription : String
  currency : String
  total_amount : Rat
deriving Repr, DecidableEq

/-- Validation failures, mirroring pydantic's error kinds: a missing
required field, a value of the wrong type for a field, an invalid
literal for an enum field, a non-object where a model was expected, a
non-list where a list was expected, a non-`str` argument to
`model_validate_json` (pydantic `json_type`), and unparsable JSON text
(pydantic `json_invalid`). -/
inductive ValErr where
  | missing (field : String)
  | wrongType (field : String)
  | invalidEnum (field : String) (value : String)
  | notAnObject
  | notAList
  | jsonType
  | invalidJson
deriving Repr, DecidableEq

/-- Elementwise validation of a JSON sequence, as pydantic performs it
for `list[...]` types: each element is validated independently and the
first failing element fails the whole batch — no partial result. -/
def validateEach {α : Type} (f : Json → Except ValErr α) :
    List Json → Except ValErr (List α)
  | [] => .ok []
  | v :: rest =>
      match f v with
      | .error e => .error e
      | .ok x =>
          match validateEach f rest with
          | .error e => .error e
          | .ok xs => .ok (x :: xs)

/-- pydantic validation of a `str`-typed model field with a declared
default: absent → default; JSON string → its value; anything else →
type error (lax mode does not coerce numbers or null to `str`). -/
def strField (flds : List (String × Json)) (name : String) (dflt : String) :
    Except ValErr String :=
  match Json.lookup flds name with
  | none => .ok dflt
  | some (.str s) => .ok s
  | some _ => .error (.wrongType name)

/-- pydantic validation of a required `str` field (`Field(...)`):
absent → missing-field error. -/
def strFieldReq (flds : List (String × Json)) (name : String) :
    Except ValErr String :=
  match Json.lookup flds name with
  | none => .error (.missing name)
  | some (.str s) => .ok s
  | some _ => .error (.wrongType name)

/-- pydantic validation of a `float` model field with a default: absent →
default; JSON number → its value (ints are coerced to float); JSON
string → pydantic's lax numeric-string coercion (`lib.parseNum`);
bool/null/list/dict → type error. -/
def floatField (lib : PyLib) (flds : List (String × Json)) (name : String)
    (dflt : Rat) : Except ValErr Rat :=
  match Json.lookup flds name with
  | none => .ok dflt
  | some (.num q) => .ok q
  | some (.str s) =>
      match lib.parseNum s with
      | some q => .ok q
      | none => .error (.wrongType name)
  | some _ => .error (.wrongType name)

/-- Coercion of a JSON value into `ExpenseImageType` (a `(str, Enum)`
accepts exactly its literal tag strings, case-sensitively). -/
def ExpenseImageType.validate (name : String) (v : Json) :
    Except ValErr ExpenseImageType :=
  match v with
  | .str s =>
      if s = "Receipt" then .ok .Receipt
      else if s = "Invoice" then .ok .Invoice
      else if s = "Others" then .ok .Others
      else .error (.invalidEnum name s)
  | _ => .error (.wrongType name)

/-- Coercion of a JSON value into `ExpenseType` (a `(str, Enum)` accepts
exactly `"Standard"` and `"Subscription"`, case-sensitively). -/
def ExpenseType.validate (name : String) (v : Json) :
    Except ValErr ExpenseType :=
  match v with
  | .str s =>
      if s = "Standard" then .ok .Standard
      else if s = "Subscription" then .ok .Subscription
      else .error (.invalidEnum name s)
  | _ => .error (.wrongType name)

/-- pydantic validation of the required `image_type` enum field. -/
def imageTypeField (flds : List (String × Json)) :
    Except ValErr ExpenseImageType :=
  match Json.lookup flds "image_type" with
  | none => .error (.missing "image_type")
  | some w => ExpenseImageType.validate "image_type" w

/-- pydantic validation of `ExpenseImage`: both fields required. -/
def ExpenseImage.validate (v : Json) : Except ValErr ExpenseImage :=
  match v with
  | .obj flds => do
      let image_type ← imageTypeField flds
      let image_file_name ← strFieldReq flds "image_file_name"
      .ok ⟨image_type, image_file_name⟩
  | _ => .error .notAnObject

/-- pydantic validation of `ExpenseItem`: all fields defaulted. -/
def ExpenseItem.validate (lib : PyLib) (v : Json) : Except ValErr ExpenseItem :=
  match v with
  | .obj flds => do
      let name ← strField flds "name" ""
      let quantity ← floatField lib flds "quantity" 0
      let unit_price ← floatField lib flds "unit_price" 0
      let subtotal ← floatField lib flds "subtotal" 0
      .ok ⟨name, quantity, unit_price, subtotal⟩
  | _ => .error .notAnObject

/-- Validation of the `items: list[ExpenseItem] = Field([])` field:
absent → the declared empty-list default; a JSON array → every element
validated as `ExpenseItem` (the first failure fails the whole field);
anything else → type error. -/
def itemsField (lib : PyLib) (flds : List (String × Json)) :
    Except ValErr (List ExpenseItem) :=
  match Json.lookup flds "items" with
  | none => .ok []
  | some (.arr l) => validateEach (ExpenseItem.validate lib) l
  | some _ => .error (.wrongType "items")

/-- Validation of `expense_type: ExpenseType = Field(ExpenseType.Standard)`:
absent → the declared `Standard` default. -/
def expenseTypeField (flds : List (String × Json)) : Except ValErr ExpenseType :=
  match Json.lookup flds "expense_type" with
  | none => .ok .Standard
  | some v => ExpenseType.validate "expense_type" v

/-- pydantic validation of `Expense`: fields in declaration order, each
with its declared default; unknown keys are ignored (pydantic's default
`extra="ignore"`). -/
def Expense.validate (lib : PyLib) (v : Json) : Except ValErr Expense :=
  match v with
  | .obj flds => do
      let shop_name ← strField flds "shop_name" ""
      let shop_address ← strField flds "shop_address" ""
      let date ← strField flds "date" ""
      let expense_category ← strField flds "expense_category" "Misc"
      let currency ← strField flds "currency" ""
      let total_amount ← floatField lib flds "total_amount" 0
      let items ← itemsField lib flds
      let expense_type ← expenseTypeField flds
      let remark ← strField flds "remark" ""
      .ok ⟨shop_name, shop_address, date, expense_category, currency,
           total_amount, items, expense_type, remark⟩
  | _ => .error .notAnObject

/-- Validation of an `Optional[ExpenseImage] = Field(None)` field:
absent or JSON null → `none`. -/
def optImageField (flds : List (String × Json)) :
    Except ValErr (Option ExpenseImage) :=
  match Json.lookup flds "image" with
  | none => .ok none
  | some .null => .ok none
  | some v => (ExpenseImage.validate v).map some

/-- Validation of an `Optional[Expense] = Field(None)` field:
absent or JSON null → `none`. -/
def optExpenseField (lib : PyLib) (flds : List (String × Json)) :
    Except ValErr (Option Expense) :=
  match Json.lookup flds "expense" with
  | none => .ok none
  | some .null => .ok none
  | some v => (Expense.validate lib v).map some

/-- pydantic validation of `ExpenseImageData`: both fields optional. -/
def ExpenseImageData.validate (lib : PyLib) (v : Json) :
    Except ValErr ExpenseImageData :=
  match v with
  | .obj flds => do
      let image ← optImageField flds
      let expense ← optExpenseField lib flds
      .ok ⟨image, expense⟩
  | _ => .error .notAnObject

/-- pydantic validation of `ExpenseRecord`: the inherited optional
`image`/`expense` fields plus the required `id`. -/
def ExpenseRecord.validate (lib : PyLib) (v : Json) :
    Except ValErr ExpenseRecord :=
  match v with
  | .obj flds => do
      let image ← optImageField flds
      let expense ← optExpenseField lib flds
      let id ← strFieldReq flds "id"
      .ok ⟨⟨image, expense⟩, id⟩
  | _ => .error .notAnObject

/-- `TypeAdapter(list[ExpenseRecord]).validate_python`: the payload must
be a list and every element must validate; the first failing element
fails the whole batch (no partial result). -/
def listAdapterValidate (lib : PyLib) (v : Json) :
    Except ValErr (List ExpenseRecord) :=
  match v with
  | .arr l => validateEach (ExpenseRecord.validate lib) l
  | _ => .error .notAList

/-- `ExpenseImageData.model_validate_json`: pydantic accepts only JSON
*text* (a Python `str`) here; it first parses the text and then
validates the parse.  Any non-`str` Python object — in particular the
`dict` produced by `r.json()` for an object body — is rejected with a
`json_type` error before any field validation happens. -/
def ExpenseImageData.model_validate_json (lib : PyLib) (v : Json) :
    Except ValErr ExpenseImageData :=
  match v with
  | .str s =>
      match lib.parseJson s with
      | some j => ExpenseImageData.validate lib j
      | none => .error .invalidJson
  | _ => .error .jsonType

/-- pydantic validation of `MonthCurAmtStatItem` (all fields required). -/
def MonthCurAmtStatItem.validate (lib : PyLib) (v : Json) :
    Except ValErr MonthCurAmtStatItem :=
  match v with
  | .obj flds => do
      let month ← strFieldReq flds "month"
      let currency ← strFieldReq flds "currency"
      let total_amount ←
        match Json.lookup flds "total_amount" with
        | none => .error (.missing "total_amount")
        | some (.num q) => .ok q
        | some (.str s) =>
            match lib.parseNum s with
            | some q => .ok q
            | none => .error (.wrongType "total_amount")
        | some _ => .error (.wrongType "total_amount")
      .ok ⟨month, currency, total_amount⟩
  | _ => .error .notAnObject

/-- pydantic validation of `CategoryCurAmtStatItem` (all fields required). -/
def CategoryCurAmtStatItem.validate (lib : PyLib) (v : Json) :
    Except ValErr CategoryCurAmtStatItem :=
  match v with
  | .obj flds => do
      let category ← strFieldReq flds "category"
      let currency ← strFieldReq flds "currency"
      let total_amount ←
        match Json.lookup flds "total_amount" with
        | none => .error (.missing "total_amount")
        | some (.num q) => .ok q
        | some (.str s) =>
            match lib.parseNum s with
            | some q => .ok q
            | none => .error (.wrongType "total_amount")
        | some _ => .error (.wrongType "total_amount")
      .ok ⟨category, currency, total_amount⟩
  | _ => .error .notAnObject

/-- pydantic validation of `SubscriptionCurAmtStatItem` (all fields required). -/
def SubscriptionCurAmtStatItem.validate (lib : PyLib) (v : Json) :
    Except ValErr SubscriptionCurAmtStatItem :=
  match v with
  | .obj flds => do
      let subscription ← strFieldReq flds "subscription"
      let currency ← strFieldReq flds "currency"
      let total_amount ←
        match Json.lookup flds "total_amount" with
        | none => .error (.missing "total_amount")
        | some (.num q) => .ok q
        | some (.str s) =>
            match lib.parseNum s with
            | some q => .ok q
            | none => .error (.wrongType "total_amount")
        | some _ => .error (.wrongType "total_amount")
      .ok ⟨subscription, currency, total_amount⟩
  | _ => .error .notAnObject

/-- `class ExpenseSearchRequest(BaseModel)`: the search-parameter model
declared in the source.  Note: no tool operation ever constructs or
validates this model — it is dead code in the source program. -/
structure ExpenseSearchRequest where
  skip : Int
  limit : Int
  text_input : Option String
  from_date : Option String
  to_date : Option String
deriving Repr, DecidableEq

/-- The field constraints declared on `ExpenseSearchRequest`:
`limit` has `gt=0, le=100`; `text_input` has `min_length=2`. -/
def ExpenseSearchRequest.constraintsOk (r : ExpenseSearchRequest) : Bool :=
  (0 < r.limit) && (r.limit ≤ 100) &&
    (match r.text_input with
     | some s => 2 ≤ s.length
     | none => true)

/-- `_EXPENSELM_API_ENDPOINT = "https://api.expenselm.ai"`. -/
def EXPENSELM_API_ENDPOINT : String := "https://api.expenselm.ai"

/-- `_EXPENSELM_TIMEOUT = 60.0` seconds, applied uniformly to every
`httpx.AsyncClient`; no claim concerns timing, so it is recorded on the
request for completeness only. -/
def EXPENSELM_TIMEOUT : Rat := 60

/-- A value of the `search_params` dict (`dict[str, str | int]`). -/
inductive QVal where
  | int (n : Int)
  | str (s : String)
deriving Repr, DecidableEq

/-- An outbound HTTP GET request as issued by `client.get(...)`:
URL, headers, query parameters (in dict insertion order), timeout. -/
structure Request where
  url : String
  headers : List (String × String)
  queryParams : List (String × QVal)
  timeout : Rat
deriving Repr, DecidableEq

/-- The remote response as this program observes it: the HTTP status
code and the parsed JSON body (`r.json()`).  The source never reads
`r.status_code` — it is carried here so theorems can state that. -/
structure Response where
  status : Nat
  body : Json

/-- Failures an operation can raise: the `ValueError` from
`_get_api_key` (missing credential) or a pydantic `ValidationError`.
The source has no handler producing a remote-status error: it never
inspects `r.status_code`. -/
inductive Err where
  | configError (msg : String)
  | validationError (e : ValErr)
deriving Repr, DecidableEq

/-- `_get_api_key()`: read `EXPENSELM_API_KEY` from the environment;
raise `ValueError` when unset. -/
def get_api_key (env : Option String) : Except Err String :=
  match env with
  | none => .error (.configError "EXPENSELM_API_KEY is not set")
  | some key => .ok key

/-- `_get_headers()`: the single auth header, built from the API key. -/
def get_headers (env : Option String) : Except Err (List (String × String)) :=
  match get_api_key env with
  | .error e => .error e
  | .ok key => .ok [("EXPENSELM_API_KEY", key)]

/-- Python truthiness of an `Optional[str]`: `None` and `""` are falsy. -/
def truthyStr (v : Option String) : Bool :=
  match v with
  | none => false
  | some s => !s.isEmpty

/-- The `search_params` dict built by `get_latest_expenses` /
`get_latest_subscription_expenses`: always `skip` and `limit`, then
each optional argument appended under `if arg:` (Python truthiness). -/
def buildSearchParams (skip limit : Int)
    (from_date to_date text_input : Option String) : List (String × QVal) :=
  [("skip", .int skip), ("limit", .int limit)] ++
    (if truthyStr from_date then [("from_date", .str (from_date.getD ""))] else []) ++
    (if truthyStr to_date then [("to_date", .str (to_date.getD ""))] else []) ++
    (if truthyStr text_input then [("text_input", .str (text_input.getD ""))] else [])

/-- Shared request/validate skeleton of the list-returning operations:
evaluate `_get_headers()` (raising before any I/O when the key is
unset), issue one GET, validate the parsed body with the list adapter.
Returns the outcome and the trace of requests actually issued. -/
def listToolCall (lib : PyLib) (env : Option String)
    (remote : Request → Response) (url : String)
    (params : List (String × QVal)) :
    Except Err (List ExpenseRecord) × List Request :=
  match get_headers env with
  | .error e => (.error e, [])
  | .ok hdrs =>
      let req : Request := ⟨url, hdrs, params, EXPENSELM_TIMEOUT⟩
      let r := remote req
      ((listAdapterValidate lib r.body).mapError Err.validationError, [req])

/-- `get_latest_expenses(skip=0, limit=10, from_date=None, to_date=None,
text_input=None)`: GET `/expenses/` with the built search params.  No
local validation of `skip` or `limit` happens anywhere on this path. -/
def get_latest_expenses (lib : PyLib) (env : Option String)
    (remote : Request → Response) (skip limit : Int)
    (from_date to_date text_input : Option String) :
    Except Err (List ExpenseRecord) × List Request :=
  listToolCall lib env remote (EXPENSELM_API_ENDPOINT ++ "/expenses/")
    (buildSearchParams skip limit from_date to_date text_input)

/-- `get_latest_subscription_expenses(...)`: identical to
`get_latest_expenses` except for the `/subscriptions/` path. -/
def get_latest_subscription_expenses (lib : PyLib) (env : Option String)
    (remote : Request → Response) (skip limit : Int)
    (from_date to_date text_input : Option String) :
    Except Err (List ExpenseRecord) × List Request :=
  listToolCall lib env remote (EXPENSELM_API_ENDPOINT ++ "/subscriptions/")
    (buildSearchParams skip limit from_date to_date text_input)

/-- `get_expense_by_id(id)`: GET `/expenses/{id}` with no query
parameters, then `ExpenseImageData.model_validate_json(r.json())` — the
already-parsed body is handed to the JSON-text validator. -/
def get_expense_by_id (lib : PyLib) (env : Option String)
    (remote : Request → Response) (id : String) :
    Except Err ExpenseImageData × List Request :=
  match get_headers env with
  | .error e => (.error e, [])
  | .ok hdrs =>
      let req : Request :=
        ⟨EXPENSELM_API_ENDPOINT ++ "/expenses/" ++ id, hdrs, [], EXPENSELM_TIMEOUT⟩
      let r := remote req
      ((ExpenseImageData.model_validate_json lib r.body).mapError Err.validationError,
       [req])

/-- Shared skeleton of the three stats operations: both dates are
required, sent as string query params, response validated per item. -/
def statsToolCall {α : Type} (env : Option String)
    (remote : Request → Response) (url : String)
    (validateItem : Json → Except ValErr α)
    (from_date to_date : String) : Except Err (List α) × List Request :=
  match get_headers env with
  | .error e => (.error e, [])
  | .ok hdrs =>
      let req : Request :=
        ⟨url, hdrs, [("from_date", .str from_date), ("to_date", .str to_date)],
         EXPENSELM_TIMEOUT⟩
      let r := remote req
      ((match r.body with
        | .arr l => validateEach validateItem l
        | _ => .error ValErr.notAList).mapError Err.validationError, [req])

/-- `get_expense_summary_by_month_by_currency(from_date, to_date)`. -/
def get_expense_summary_by_month_by_currency (lib : PyLib)
    (env : Option String) (remote : Request → Response)
    (from_date to_date : String) :
    Except Err (List MonthCurAmtStatItem) × List Request :=
  statsToolCall env remote
    (EXPENSELM_API_ENDPOINT ++ "/stats/summary-by-month-by-currency")
    (MonthCurAmtStatItem.validate lib) from_date to_date

/-- `get_expense_summary_by_category_by_currency(from_date, to_date)`. -/
def get_expense_summary_by_category_by_currency (lib : PyLib)
    (env : Option String) (remote : Request → Response)
    (from_date to_date : String) :
    Except Err (List CategoryCurAmtStatItem) × List Request :=
  statsToolCall env remote
    (EXPENSELM_API_ENDPOINT ++ "/stats/summary-by-category-by-currency")
    (CategoryCurAmtStatItem.validate lib) from_date to_date

/-- `get_expense_summary_by_subscription_by_currency(from_date, to_date)`. -/
def get_expense_summary_by_subscription_by_currency (lib : PyLib)
    (env : Option String) (remote : Request → Response)
    (from_date to_date : String) :
    Except Err (List SubscriptionCurAmtStatItem) × List Request :=
  statsToolCall env remote
    (EXPENSELM_API_ENDPOINT ++ "/stats/summary-by-subscription-by-currency")
    (SubscriptionCurAmtStatItem.validate lib) from_date to_date

/-- A concrete `PyLib` instantiation for closed witnesses (none of the
claims' inputs ever reach the parameterised branches). -/
def lib0 : PyLib := ⟨fun _ => none, fun _ => none⟩

/-- A concrete remote oracle for closed witnesses. -/
def remote0 : Request → Response := fun _ => ⟨200, Json.null⟩

/-- Returns `true` exactly on a successful validation result. -/
def isOkResult {ε α : Type} : Except ε α → Bool
  | .ok _ => true
  | .error _ => false

/-- Sequencing a failing computation fails. -/
theorem bind_isOk_false {ε α β : Type} (x : Except ε α) (f : α → Except ε β)
    (h : ∀ a, x = .ok a → isOkResult (f a) = false) :
    isOkResult (x >>= f) = false := by
  cases x with
  | error e => rfl
  | ok a => exact h a rfl

/-- One failing element fails the whole elementwise validation. -/
theorem validateEach_fails_of_mem {α : Type} (f : Json → Except ValErr α)
    (l : List Json) (a : Json) (ha : a ∈ l) (hf : isOkResult (f a) = false) :
    isOkResult (validateEach f l) = false := by
  induction l with
  | nil => cases ha
  | cons b rest ih =>
      cases hb : f b with
      | error e => simp [validateEach, hb, isOkResult]
      | ok x =>
          rcases List.mem_cons.mp ha with h | h
          · subst h; rw [hb] at hf; simp [isOkResult] at hf
          · have hrest := ih h
            cases hr : validateEach f rest with
            | error e => simp [validateEach, hb, hr, isOkResult]
            | ok xs => rw [hr] at hrest; simp [isOkResult] at hrest

/-- C9: every field of `Expense` carries a declared default, so the
empty JSON object validates successfully and yields exactly
`shop_name=""`, `shop_address=""`, `date=""`, `expense_category="Misc"`,
`currency=""`, `total_amount=0`, `items=[]`, `expense_type=Standard`,
`remark=""` — no `Expense` field is ever required of the payload. -/
theorem C9_empty_object_all_defaults (lib : PyLib) :
    Expense.validate lib (.obj []) =
      .ok ⟨"", "", "", "Misc", "", 0, [], .Standard, ""⟩ := rfl

/-- C6: a remote JSON object matching the `Expense` schema exactly
reconstructs the record with identical field values, with
`"Subscription"` coerced to the `Subscription` enum tag, an omitted
`items` field substituted by the empty sequence, and an omitted
`expense_category` substituted by `"Misc"`. -/
theorem C6_expense_roundtrip (lib : PyLib) (sn sa d cur rm : String) (amt : Rat) :
    Expense.validate lib (.obj [("shop_name", .str sn), ("shop_address", .str sa),
      ("date", .str d), ("currency", .str cur), ("total_amount", .num amt),
      ("expense_type", .str "Subscription"), ("remark", .str rm)]) =
      .ok ⟨sn, sa, d, "Misc", cur, amt, [], .Subscription, rm⟩ := by
  rfl

/-- C4: with `EXPENSELM_API_KEY` unset, every one of the six operations
fails with the configuration error raised by `_get_api_key` (the
`ValueError` message of the source) and its request trace is empty — the
failure occurs before any HTTP request is issued. -/
theorem C4_missing_credential_fails_before_io (lib : PyLib)
    (remote : Request → Response) (skip limit : Int)
    (fd td ti : Option String) (id fdr tdr : String) :
    get_latest_expenses lib none remote skip limit fd td ti =
      (.error (.configError "EXPENSELM_API_KEY is not set"), []) ∧
    get_latest_subscription_expenses lib none remote skip limit fd td ti =
      (.error (.configError "EXPENSELM_API_KEY is not set"), []) ∧
    get_expense_by_id lib none remote id =
      (.error (.configError "EXPENSELM_API_KEY is not set"), []) ∧
    get_expense_summary_by_month_by_currency lib none remote fdr tdr =
      (.error (.configError "EXPENSELM_API_KEY is not set"), []) ∧
    get_expense_summary_by_category_by_currency lib none remote fdr tdr =
      (.error (.configError "EXPENSELM_API_KEY is not set"), []) ∧
    get_expense_summary_by_subscription_by_currency lib none remote fdr tdr =
      (.error (.configError "EXPENSELM_API_KEY is not set"), []) :=
  ⟨rfl, rfl, rfl, rfl, rfl, rfl⟩

/-- C1: the declared `gt=0, le=100` constraint on `limit` (carried by
the `ExpenseSearchRequest` model, which no operation ever uses) rejects
`limit = 0` and `limit = 101`, yet `get_latest_expenses` performs no
local validation at all: for every limit value it builds and issues the
GET request with that limit placed in the query, instead of raising
before the request as the claim states. -/
theorem C1_out_of_range_limit_is_sent (lib : PyLib) (k : String)
    (remote : Request → Response) (limit : Int) :
    ExpenseSearchRequest.constraintsOk ⟨0, 0, none, none, none⟩ = false ∧
    ExpenseSearchRequest.constraintsOk ⟨0, 101, none, none, none⟩ = false ∧
    (get_latest_expenses lib (some k) remote 0 limit none none none).2 =
      [⟨"https://api.expenselm.ai/expenses/", [("EXPENSELM_API_KEY", k)],
        [("skip", .int 0), ("limit", .int limit)], 60⟩] :=
  ⟨by decide, by decide, rfl⟩

/-- C2: the source never inspects `r.status_code` (no raise on a
non-success status): a 404 from `/expenses/abc123` with the usual JSON
error body produces, for every status alike, a pydantic validation
error (the `json_type` rejection of the already-parsed body) that
carries neither the status code nor the response body — no remote-error
outcome with status 404 is ever surfaced. -/
theorem C2_remote_status_ignored (lib : PyLib) (k : String) (status : Nat) :
    (get_expense_by_id lib (some k)
        (fun _ => ⟨status, .obj [("detail", .str "Not Found")]⟩) "abc123").1 =
      .error (.validationError .jsonType) ∧
    (get_expense_by_id lib (some k)
        (fun _ => ⟨status, .obj [("detail", .str "Not Found")]⟩) "abc123").2 =
      [⟨"https://api.expenselm.ai/expenses/abc123",
        [("EXPENSELM_API_KEY", k)], [], 60⟩] :=
  ⟨rfl, rfl⟩

/-- C3: `get_expense_by_id` does issue a single GET to `/expenses/{id}`
with no query parameters, but for every remote JSON body conforming to
the `ExpenseImageData` schema it nevertheless fails: the already-parsed
body (a dict) is handed to `model_validate_json`, which accepts only
JSON text, so a `json_type` validation error is raised instead of the
validated record being returned. -/
theorem C3_conforming_body_still_rejected (lib : PyLib) (k id : String)
    (body : Json) (x : ExpenseImageData)
    (hconf : ExpenseImageData.validate lib body = .ok x) :
    (get_expense_by_id lib (some k) (fun _ => ⟨200, body⟩) id).1 =
      .error (.validationError .jsonType) ∧
    (get_expense_by_id lib (some k) (fun _ => ⟨200, body⟩) id).2 =
      [⟨EXPENSELM_API_ENDPOINT ++ "/expenses/" ++ id,
        [("EXPENSELM_API_KEY", k)], [], 60⟩] := by
  cases body with
  | obj flds => exact ⟨rfl, rfl⟩
  | null => simp [ExpenseImageData.validate] at hconf
  | bool b => simp [ExpenseImageData.validate] at hconf
  | num q => simp [ExpenseImageData.validate] at hconf
  | str s => simp [ExpenseImageData.validate] at hconf
  | arr l => simp [ExpenseImageData.validate] at hconf

/-- Witness for C3 at a concrete conforming body. -/
theorem C3_witness :
    (get_expense_by_id lib0 (some "k")
        (fun _ => ⟨200, .obj [("image", .null), ("expense", .null)]⟩) "abc123").1 =
      .error (.validationError .jsonType) ∧
    (get_expense_by_id lib0 (some "k")
        (fun _ => ⟨200, .obj [("image", .null), ("expense", .null)]⟩) "abc123").2 =
      [⟨EXPENSELM_API_ENDPOINT ++ "/expenses/" ++ "abc123",
        [("EXPENSELM_API_KEY", "k")], [], 60⟩] :=
  C3_conforming_body_still_rejected lib0 "k" "abc123"
    (.obj [("image", .null), ("expense", .null)]) ⟨none, none⟩ rfl

/-- Python truthiness of `some s` holds exactly for non-empty `s`. -/
theorem truthyStr_some_iff (s : String) : truthyStr (some s) = true ↔ s ≠ "" := by
  constructor
  · intro h hc
    subst hc
    exact absurd h (by decide)
  · intro h
    have hf : s.isEmpty = false := by
      cases hs : s.isEmpty
      · rfl
      · exact absurd ((String.isEmpty_iff s).mp hs) h
    simp [truthyStr, hf]

/-- Membership of a string-valued pair in one optional query segment. -/
theorem mem_optSegment (k k' s : String) (v : Option String) :
    ((k, QVal.str s) ∈
      (if truthyStr v then [(k', QVal.str (v.getD ""))] else [])) ↔
      (k = k' ∧ v = some s ∧ s ≠ "") := by
  rcases v with _ | a
  · simp [truthyStr]
  · by_cases ha : a = ""
    · subst ha
      rw [if_neg (by decide)]
      simp only [List.not_mem_nil, false_iff]
      rintro ⟨-, heq, hne⟩
      injection heq with heq
      exact hne heq.symm
    · have ht : truthyStr (some a) = true := (truthyStr_some_iff a).mpr ha
      rw [if_pos ht]
      simp only [Option.getD_some, List.mem_singleton, Prod.mk.injEq,
        Option.some.injEq]
      constructor
      · rintro ⟨rfl, h⟩
        cases h
        exact ⟨rfl, rfl, ha⟩
      · rintro ⟨rfl, rfl, -⟩
        exact ⟨rfl, rfl⟩

/-- Characterisation of the string-valued entries of the built query:
exactly the truthy optional arguments, under their own key, verbatim. -/
theorem mem_str_buildSearchParams (skip limit : Int) (fd td ti : Option String)
    (k s : String) :
    ((k, QVal.str s) ∈ buildSearchParams skip limit fd td ti) ↔
      ((k = "from_date" ∧ fd = some s ∧ s ≠ "") ∨
       (k = "to_date" ∧ td = some s ∧ s ≠ "") ∨
       (k = "text_input" ∧ ti = some s ∧ s ≠ "")) := by
  unfold buildSearchParams
  simp only [List.mem_append, mem_optSegment, List.mem_cons, List.not_mem_nil,
    or_false, Prod.mk.injEq]
  constructor
  · rintro ((((⟨-, h⟩ | ⟨-, h⟩) | h) | h) | h)
    · exact QVal.noConfusion h
    · exact QVal.noConfusion h
    · exact .inl h
    · exact .inr (.inl h)
    · exact .inr (.inr h)
  · rintro (h | h | h)
    · exact .inl (.inl (.inr h))
    · exact .inl (.inr h)
    · exact .inr h

/-- Every entry of an optional query segment carries that segment's key. -/
theorem mem_segment_key (k' : String) (v : Option String) (p : String × QVal)
    (h : p ∈ (if truthyStr v then [(k', QVal.str (v.getD ""))] else [])) :
    p.1 = k' := by
  by_cases hc : truthyStr v = true
  · rw [if_pos hc] at h
    rw [List.mem_singleton] at h
    rw [h]
  · rw [if_neg hc] at h
    exact absurd h (List.not_mem_nil p)

/-- Every entry of the built query uses one of the five declared keys. -/
theorem keys_buildSearchParams (skip limit : Int) (fd td ti : Option String)
    (p : String × QVal) (hp : p ∈ buildSearchParams skip limit fd td ti) :
    p.1 = "skip" ∨ p.1 = "limit" ∨ p.1 = "from_date" ∨ p.1 = "to_date" ∨
      p.1 = "text_input" := by
  unfold buildSearchParams at hp
  rcases List.mem_append.mp hp with hp1 | h3
  · rcases List.mem_append.mp hp1 with hp2 | h2
    · rcases List.mem_append.mp hp2 with hbase | h1
      · rcases List.mem_cons.mp hbase with h | hbase'
        · simp [h]
        · rcases List.mem_cons.mp hbase' with h | hnil
          · simp [h]
          · exact absurd hnil (List.not_mem_nil p)
      · simp [mem_segment_key "from_date" fd p h1]
    · simp [mem_segment_key "to_date" td p h2]
  · simp [mem_segment_key "text_input" ti p h3]

/-- C5 counterexample: with the valid values `skip = 0`, `limit = 10`
and `from_date` explicitly supplied non-null as the empty string, the
issued query contains only `skip` and `limit` — the non-null
`from_date` argument is dropped by Python truthiness, refuting the
claimed "exactly when supplied non-null" contract. -/
theorem C5_counterexample :
    some "" ≠ (none : Option String) ∧
    (get_latest_expenses lib0 (some "k") remote0 0 10 (some "") none none).2 =
      [⟨"https://api.expenselm.ai/expenses/", [("EXPENSELM_API_KEY", "k")],
        [("skip", .int 0), ("limit", .int 10)], 60⟩] :=
  ⟨by simp, rfl⟩

/-- C5 (amended): for every valid `limit` in `[1,100]` and `skip ≥ 0`
the single issued request's query contains exactly `skip` and `limit`,
plus each of `from_date`, `to_date`, `text_input` exactly when that
argument is supplied as a non-null, non-empty string (verbatim); an
omitted or empty-string optional argument never appears, and no query
entry ever carries the empty string as value. -/
theorem C5_amended_exact_query (lib : PyLib) (k : String)
    (remote : Request → Response) (skip limit : Int) (fd td ti : Option String)
    (hlo : 1 ≤ limit) (hhi : limit ≤ 100) (hsk : 0 ≤ skip) :
    ∃ r : Request,
      (get_latest_expenses lib (some k) remote skip limit fd td ti).2 = [r] ∧
      ("skip", QVal.int skip) ∈ r.queryParams ∧
      ("limit", QVal.int limit) ∈ r.queryParams ∧
      (∀ s : String,
        ("from_date", QVal.str s) ∈ r.queryParams ↔ fd = some s ∧ s ≠ "") ∧
      (∀ s : String,
        ("to_date", QVal.str s) ∈ r.queryParams ↔ td = some s ∧ s ≠ "") ∧
      (∀ s : String,
        ("text_input", QVal.str s) ∈ r.queryParams ↔ ti = some s ∧ s ≠ "") ∧
      (∀ p ∈ r.queryParams,
        p.1 = "skip" ∨ p.1 = "limit" ∨ p.1 = "from_date" ∨ p.1 = "to_date" ∨
          p.1 = "text_input") ∧
      (∀ key : String, (key, QVal.str "") ∉ r.queryParams) := by
  refine ⟨⟨EXPENSELM_API_ENDPOINT ++ "/expenses/", [("EXPENSELM_API_KEY", k)],
    buildSearchParams skip limit fd td ti, EXPENSELM_TIMEOUT⟩,
    rfl, ?_, ?_, ?_, ?_, ?_, ?_, ?_⟩
  · unfold buildSearchParams
    simp
  · unfold buildSearchParams
    simp
  · intro s
    rw [mem_str_buildSearchParams]
    simp
  · intro s
    rw [mem_str_buildSearchParams]
    simp
  · intro s
    rw [mem_str_buildSearchParams]
    simp
  · exact keys_buildSearchParams skip limit fd td ti
  · intro key hmem
    rw [mem_str_buildSearchParams] at hmem
    simp at hmem

/-- Witness for the amended C5 at a concrete valid input. -/
theorem C5_amended_witness :
    ∃ r : Request,
      (get_latest_expenses lib0 (some "k") remote0 0 10
          (some "2024-01-01") none (some "ab")).2 = [r] ∧
      ("skip", QVal.int 0) ∈ r.queryParams ∧
      ("limit", QVal.int 10) ∈ r.queryParams ∧
      (∀ s : String,
        ("from_date", QVal.str s) ∈ r.queryParams ↔
          some "2024-01-01" = some s ∧ s ≠ "") ∧
      (∀ s : String,
        ("to_date", QVal.str s) ∈ r.queryParams ↔
          (none : Option String) = some s ∧ s ≠ "") ∧
      (∀ s : String,
        ("text_input", QVal.str s) ∈ r.queryParams ↔ some "ab" = some s ∧ s ≠ "") ∧
      (∀ p ∈ r.queryParams,
        p.1 = "skip" ∨ p.1 = "limit" ∨ p.1 = "from_date" ∨ p.1 = "to_date" ∨
          p.1 = "text_input") ∧
      (∀ key : String, (key, QVal.str "") ∉ r.queryParams) :=
  C5_amended_exact_query lib0 "k" remote0 0 10 (some "2024-01-01") none (some "ab")
    (by decide) (by decide) (by decide)

/-- Sequencing yields `ok` exactly when both steps do. -/
theorem bind_eq_ok_iff {ε α β : Type} (x : Except ε α) (f : α → Except ε β)
    (b : β) : (x >>= f) = .ok b ↔ ∃ a, x = .ok a ∧ f a = .ok b := by
  cases x with
  | error e => simp [Bind.bind, Except.bind]
  | ok a => simp [Bind.bind, Except.bind]

/-- An `Expense` payload whose `expense_type` field holds a string that
is not one of the declared enum literals never validates. -/
theorem expense_validate_fails_of_bad_enum (lib : PyLib)
    (eflds : List (String × Json)) (s : String)
    (hs : Json.lookup eflds "expense_type" = some (.str s))
    (h1 : s ≠ "Standard") (h2 : s ≠ "Subscription") :
    isOkResult (Expense.validate lib (.obj eflds)) = false := by
  unfold Expense.validate
  apply bind_isOk_false; intro a1 _
  apply bind_isOk_false; intro a2 _
  apply bind_isOk_false; intro a3 _
  apply bind_isOk_false; intro a4 _
  apply bind_isOk_false; intro a5 _
  apply bind_isOk_false; intro a6 _
  apply bind_isOk_false; intro a7 _
  apply bind_isOk_false; intro a8 ha8
  exfalso
  unfold expenseTypeField ExpenseType.validate at ha8
  simp only [hs] at ha8
  rw [if_neg h1, if_neg h2] at ha8
  exact Except.noConfusion ha8

/-- An `ExpenseRecord` element whose `expense` object carries an invalid
enum literal for `expense_type` never validates. -/
theorem record_validate_fails_of_bad_enum (lib : PyLib)
    (rflds eflds : List (String × Json)) (s : String)
    (he : Json.lookup rflds "expense" = some (.obj eflds))
    (hs : Json.lookup eflds "expense_type" = some (.str s))
    (h1 : s ≠ "Standard") (h2 : s ≠ "Subscription") :
    isOkResult (ExpenseRecord.validate lib (.obj rflds)) = false := by
  unfold ExpenseRecord.validate
  apply bind_isOk_false; intro a1 _
  apply bind_isOk_false; intro a2 ha2
  exfalso
  unfold optExpenseField at ha2
  simp only [he] at ha2
  have hfail := expense_validate_fails_of_bad_enum lib eflds s hs h1 h2
  cases hE : Expense.validate lib (.obj eflds) with
  | error e =>
      rw [hE] at ha2
      exact Except.noConfusion ha2
  | ok x =>
      rw [hE] at hfail
      exact Bool.noConfusion hfail

/-- C7: a remote JSON array in which some element's `expense` object
carries the invalid enum literal `"Recurring"` for `expense_type` fails
the whole batch validation with a validation error — no partial list of
the valid elements is ever returned. -/
theorem C7_batch_fails_on_invalid_enum (lib : PyLib) (pre post : List Json)
    (rflds eflds : List (String × Json))
    (he : Json.lookup rflds "expense" = some (.obj eflds))
    (hs : Json.lookup eflds "expense_type" = some (.str "Recurring")) :
    isOkResult (listAdapterValidate lib
      (.arr (pre ++ Json.obj rflds :: post))) = false := by
  unfold listAdapterValidate
  apply validateEach_fails_of_mem _ _ (Json.obj rflds)
  · exact List.mem_append.mpr (.inr (List.mem_cons_self _ _))
  · exact record_validate_fails_of_bad_enum lib rflds eflds "Recurring" he hs
      (by decide) (by decide)

/-- Witness for C7: a two-element batch, one valid record and one whose
expense has `expense_type = "Recurring"`, fails as a whole. -/
theorem C7_witness :
    isOkResult (listAdapterValidate lib0
      (.arr ([Json.obj [("id", Json.str "a")]] ++
        Json.obj [("id", Json.str "b"),
          ("expense", Json.obj [("expense_type", Json.str "Recurring")])] ::
          []))) = false :=
  C7_batch_fails_on_invalid_enum lib0 [Json.obj [("id", Json.str "a")]] []
    [("id", Json.str "b"),
     ("expense", Json.obj [("expense_type", Json.str "Recurring")])]
    [("expense_type", Json.str "Recurring")] rfl rfl

/-- C8 counterexample: an `ExpenseImage` payload whose `image_file_name`
is the empty string validates successfully, so validated data does not
satisfy the claimed non-emptiness invariant. -/
theorem C8_counterexample :
    ExpenseImage.validate (.obj [("image_type", .str "Receipt"),
      ("image_file_name", .str "")]) = .ok ⟨.Receipt, ""⟩ ∧
    ("" : String).length = 0 :=
  ⟨rfl, rfl⟩

/-- C8 (amended): every validated `ExpenseImage` drew its
`image_file_name` verbatim from an explicitly present string field of
the source JSON — the field is required, with no default — but its
value may be any string, including the empty one; non-emptiness is not
enforced. -/
theorem C8_amended_filename_required_verbatim (flds : List (String × Json))
    (img : ExpenseImage)
    (h : ExpenseImage.validate (.obj flds) = .ok img) :
    Json.lookup flds "image_file_name" = some (.str img.image_file_name) := by
  simp only [ExpenseImage.validate] at h
  rw [bind_eq_ok_iff] at h
  obtain ⟨t, -, h⟩ := h
  rw [bind_eq_ok_iff] at h
  obtain ⟨nm, hn, h⟩ := h
  injection h with h
  subst h
  unfold strFieldReq at hn
  cases hl : Json.lookup flds "image_file_name" with
  | none =>
      rw [hl] at hn
      exact Except.noConfusion hn
  | some v =>
      rw [hl] at hn
      cases v with
      | str s =>
          injection hn with hn
          rw [hn]
      | null => exact Except.noConfusion hn
      | bool b => exact Except.noConfusion hn
      | num q => exact Except.noConfusion hn
      | arr l => exact Except.noConfusion hn
      | obj o => exact Except.noConfusion hn

/-- Witness for the amended C8 at a concrete validated image. -/
theorem C8_amended_witness :
    Json.lookup [("image_type", Json.str "Receipt"),
      ("image_file_name", Json.str "x")] "image_file_name" =
      some (Json.str "x") :=
  C8_amended_filename_required_verbatim
    [("image_type", Json.str "Receipt"), ("image_file_name", Json.str "x")]
    ⟨.Receipt, "x"⟩ rfl

/-- C10: `skip` is never locally validated: for every integer `skip`,
negative values included, each of the two list operations places `skip`
unchanged in the outbound query of the single request it issues. -/
theorem C10_skip_never_validated (lib : PyLib) (k : String)
    (remote : Request → Response) (skip limit : Int)
    (fd td ti : Option String) :
    (∃ r : Request,
      (get_latest_expenses lib (some k) remote skip limit fd td ti).2 = [r] ∧
        ("skip", QVal.int skip) ∈ r.queryParams) ∧
    (∃ r : Request,
      (get_latest_subscription_expenses lib (some k) remote skip limit
          fd td ti).2 = [r] ∧
        ("skip", QVal.int skip) ∈ r.queryParams) := by
  constructor
  · exact ⟨⟨EXPENSELM_API_ENDPOINT ++ "/expenses/", [("EXPENSELM_API_KEY", k)],
      buildSearchParams skip limit fd td ti, EXPENSELM_TIMEOUT⟩, rfl,
      by unfold buildSearchParams; simp⟩
  · exact ⟨⟨EXPENSELM_API_ENDPOINT ++ "/subscriptions/",
      [("EXPENSELM_API_KEY", k)],
      buildSearchParams skip limit fd td ti, EXPENSELM_TIMEOUT⟩, rfl,
      by unfold buildSearchParams; simp⟩
